import Mathlib

/-!
Verification development for the Spark-Command repository, a pair of
synthetic telemetry simulators:

* `deploy/scripts/spark-simulator.py` — a mock Spark job scheduler with a
  REST surface (submit / status / kill / list / get / sub-resources) and a
  periodic background updater advancing job progress;
* `deploy/scripts/gpu-simulator.py` — a mock DCGM GPU metrics exporter with
  a periodic update pass producing correlated per-device metric snapshots.

The Python sources are shallowly embedded below.  Randomness is made
explicit: every call to `random.randint(a, b)` is modelled by `randint a b r`
where `r` is an oracle value (so the result ranges exactly over `[a, b]`),
every `random.choice(l)` by `choice l r`, every `random.random() < p` coin
by an explicit `Bool` draw, and every `random.uniform(lo, hi)` by a rational
parameter constrained to `[lo, hi]` in theorem hypotheses.  Wall-clock
timestamps are passed in as explicit parameters.  Python floats are
modelled by rationals; `int(x)` is modelled by `Int.floor` (the truncated
operands below are nonnegative, where truncation and floor agree).
-/

/-! ## Job scheduler simulator: data model (spark-simulator.py) -/

/-- Lifecycle state of a simulated Spark job.  The source stores it as the
string field `state` with values RUNNING, FINISHED, KILLED. -/
inductive JState where
  | RUNNING
  | FINISHED
  | KILLED
deriving DecidableEq, Repr

/-- Stage or task progress counters (the nested `stages` / `tasks` dicts of
an application record). -/
structure Counts where
  total : Nat
  completed : Nat
  failed : Nat
deriving DecidableEq, Repr

/-- One simulated application record, as built by `create_mock_application`.
The ISO timestamp fields (`startTime`, the `attempts` array) are not
re-modelled beyond the derived `durationMs`, which is what the code later
reads. -/
structure Job where
  id : String
  name : String
  state : JState
  sparkUser : String
  completed : Bool
  durationMs : Nat
  executors : Nat
  cores : Nat
  memoryPerExecutor : Nat
  stages : Counts
  tasks : Counts
deriving DecidableEq, Repr

/-- Model of `random.randint(a, b)`: the oracle value `r` is folded into the
inclusive range `[a, b]`. -/
def randint (a b r : Nat) : Nat := a + r % (b - a + 1)

/-- Model of `random.choice(l)`: the oracle value `r` selects an element. -/
def choice {α : Type} [Inhabited α] (l : List α) (r : Nat) : α :=
  l.getD (r % l.length) default

/-- Source `generate_app_id`: `app-<timestamp>-<randint(1000, 9999)>`.  The
strftime timestamp is passed in as `ts`. -/
def generate_app_id (ts : String) (r : Nat) : String :=
  "app-" ++ ts ++ "-" ++ toString (randint 1000 9999 r)

/-- Oracle draws consumed by one call to `create_mock_application`, in the
order the source draws them. -/
structure MockDraws where
  rid : Nat
  rStartMin : Nat
  rExec : Nat
  rCores : Nat
  rMem : Nat
  rStT : Nat
  rStC : Nat
  rStF : Nat
  rTkT : Nat
  rTkC : Nat
  rTkF : Nat
deriving Repr

/-- Source `create_mock_application(name, state)`: builds a fresh application
record.  `startTime` is backdated by `randint(1, 60)` minutes, so the derived
duration is that many minutes in milliseconds (the microseconds elapsed
between the two `datetime.now()` calls are dropped). -/
def create_mock_application (name : String) (state : JState) (ts : String)
    (d : MockDraws) : String × Job :=
  let app_id := generate_app_id ts d.rid
  (app_id,
    { id := app_id
      name := name
      state := state
      sparkUser := "dgx-admin"
      completed := state = JState.FINISHED
      durationMs := randint 1 60 d.rStartMin * 60000
      executors := randint 2 8 d.rExec
      cores := randint 4 20 d.rCores
      memoryPerExecutor := choice [4096, 8192, 16384] d.rMem
      stages := { total := randint 5 20 d.rStT
                  completed := randint 0 15 d.rStC
                  failed := randint 0 2 d.rStF }
      tasks := { total := randint 100 1000 d.rTkT
                 completed := randint 50 900 d.rTkC
                 failed := randint 0 10 d.rTkF } })

/-- Process-wide mutable store of the simulator: the `applications` dict
(insertion-ordered, modelled as an association list) and the
`completed_apps` list. -/
structure SchedState where
  applications : List (String × Job)
  completed_apps : List Job
deriving DecidableEq, Repr

/-- Python `d[k]` lookup on the `applications` dict. -/
def dictLookup (k : String) (l : List (String × Job)) : Option Job :=
  (l.find? (fun p => p.1 == k)).map (fun p => p.2)

/-- Python `d[k] = v` on an insertion-ordered dict: replace in place when the
key is present, append otherwise. -/
def dictInsert (k : String) (v : Job) (l : List (String × Job)) :
    List (String × Job) :=
  if l.any (fun p => p.1 == k) then
    l.map (fun p => if p.1 == k then (k, v) else p)
  else
    l ++ [(k, v)]

/-- Python `d.pop(k)` state effect: remove the key. -/
def dictPop (k : String) (l : List (String × Job)) : List (String × Job) :=
  l.filter (fun p => !(p.1 == k))

/-- Python `l[-10:]`: the most recent (at most) `n` elements of a list. -/
def lastN (n : Nat) (l : List Job) : List Job :=
  l.drop (l.length - n)

/-! ## Job scheduler simulator: REST endpoints -/

/-- Response of `GET /v1/submissions/status/<id>`: `some driverState` on a
hit (HTTP 200 with `success: true`), `none` for the 404
`Submission not found` body.  The handler scans only the active
`applications` dict. -/
def get_submission_status (s : SchedState) (i : String) : Option JState :=
  (dictLookup i s.applications).map (fun a => a.state)

/-- Response body of `POST /v1/submissions/create`. -/
structure CreateResp where
  success : Bool
  submissionId : String
  message : String
deriving DecidableEq, Repr

/-- Source `create_submission`: `request.get_json() or {}` is modelled by
the outer `Option` (a missing or unparseable body collapses to the empty
dict, hence to `none`), and `data.get('appResource', 'Submitted Job')` by
the inner `Option` plus default. -/
def create_submission (s : SchedState) (body : Option (Option String))
    (ts : String) (d : MockDraws) : CreateResp × SchedState :=
  let data := body.getD none
  let app_name := data.getD "Submitted Job"
  let created := create_mock_application app_name JState.RUNNING ts d
  ({ success := true
     submissionId := created.1
     message := "Driver successfully submitted as " ++ created.1 },
   { s with applications := dictInsert created.1 created.2 s.applications })

/-- Response of `POST /v1/submissions/kill/<id>`. -/
structure KillResp where
  success : Bool
  httpStatus : Nat
  message : String
deriving DecidableEq, Repr

/-- Source `kill_submission`: on a hit, pop the job from the active dict,
set its state to KILLED and `completed` to true, and append it to
`completed_apps`; otherwise answer 404 and leave the state untouched. -/
def kill_submission (s : SchedState) (i : String) : KillResp × SchedState :=
  match dictLookup i s.applications with
  | some job =>
      ({ success := true
         httpStatus := 200
         message := "Kill request for " ++ i ++ " submitted" },
       { applications := dictPop i s.applications
         completed_apps :=
           s.completed_apps ++ [{ job with state := JState.KILLED, completed := true }] })
  | none =>
      ({ success := false, httpStatus := 404, message := "Submission not found" }, s)

/-- Source `list_applications` (`GET /api/v1/applications`):
`list(applications.values()) + completed_apps[-10:]`. -/
def list_applications (s : SchedState) : List Job :=
  s.applications.map (fun p => p.2) ++ lastN 10 s.completed_apps

/-- Source `get_application` (`GET /api/v1/applications/<id>`): the active
dict first, then a linear scan of the history; `none` is the 404. -/
def get_application (s : SchedState) (i : String) : Option Job :=
  match dictLookup i s.applications with
  | some j => some j
  | none => s.completed_apps.find? (fun a => a.id == i)

/-! ## Job scheduler simulator: background updater -/

/-- Source `update_jobs` loop body, per-job progress advance: one more
completed stage when below total, and a `randint(5, 20)` batch of completed
tasks clamped by `min` to the total. -/
def updateProgress (j : Job) (rBatch : Nat) : Job :=
  let stC := if j.stages.completed < j.stages.total
             then j.stages.completed + 1 else j.stages.completed
  let tkC := if j.tasks.completed < j.tasks.total
             then min (j.tasks.completed + randint 5 20 rBatch) j.tasks.total
             else j.tasks.completed
  { j with stages := { j.stages with completed := stC },
           tasks := { j.tasks with completed := tkC } }

/-- Oracle draws consumed by one pass of the `update_jobs` loop. -/
structure TickDraws where
  perJob : Nat → Nat × Bool
  newCoin : Bool
  rName : Nat
  newDraws : MockDraws
  ts : String

/-- One sweep of the `for app_id, app in list(applications.items())` loop:
each active job is progressed; the per-job coin (`random.random() < 0.05`)
decides whether it transitions to FINISHED and moves to history.  Returns
the remaining active entries and the newly finished jobs, both in iteration
order. -/
def tickPassAux (l : List (String × Job)) (o : Nat → Nat × Bool) (k : Nat) :
    List (String × Job) × List Job :=
  match l with
  | [] => ([], [])
  | (i, j) :: rest =>
      let j2 := updateProgress j (o k).1
      let r := tickPassAux rest o (k + 1)
      if (o k).2 then
        (r.1, ({ j2 with state := JState.FINISHED, completed := true }) :: r.2)
      else
        ((i, j2) :: r.1, r.2)

/-- Name pool of the updater's synthesized jobs. -/
def tickNames : List String :=
  ["ETL Pipeline", "ML Training", "Data Processing", "RAPIDS SQL"]

/-- Source `update_jobs`, one 5-second tick: sweep all active jobs, then
(with the post-sweep population below 5 and the `random.random() < 0.1`
coin) admit one synthesized RUNNING job. -/
def update_jobs_tick (s : SchedState) (d : TickDraws) : SchedState :=
  let r := tickPassAux s.applications d.perJob 0
  let hist := s.completed_apps ++ r.2
  if r.1.length < 5 && d.newCoin then
    let nj := create_mock_application (choice tickNames d.rName)
                JState.RUNNING d.ts d.newDraws
    { applications := dictInsert nj.1 nj.2 r.1, completed_apps := hist }
  else
    { applications := r.1, completed_apps := hist }

/-- Every externally triggered transition of the store: the periodic tick
plus the REST calls.  `status`, `list` and `get` are read-only. -/
inductive Op where
  | tick (d : TickDraws)
  | submit (body : Option (Option String)) (ts : String) (d : MockDraws)
  | kill (i : String)
  | status (i : String)
  | listApps
  | getApp (i : String)

/-- State effect of one operation. -/
def applyOp (op : Op) (s : SchedState) : SchedState :=
  match op with
  | Op.tick d => update_jobs_tick s d
  | Op.submit body ts d => (create_submission s body ts d).2
  | Op.kill i => (kill_submission s i).2
  | Op.status _ => s
  | Op.listApps => s
  | Op.getApp _ => s

/-- State effect of a sequence of operations. -/
def applyOps (ops : List Op) (s : SchedState) : SchedState :=
  ops.foldl (fun t op => applyOp op t) s

/-- All job records held by the store, active values first. -/
def allJobs (s : SchedState) : List Job :=
  s.applications.map (fun p => p.2) ++ s.completed_apps

/-- Invariant of the store: every job in the active dict is RUNNING. -/
def allRunning (s : SchedState) : Prop :=
  ∀ p ∈ s.applications, p.2.state = JState.RUNNING

instance (s : SchedState) : Decidable (allRunning s) :=
  inferInstanceAs (Decidable (∀ p ∈ s.applications, p.2.state = JState.RUNNING))

/-! ## Job scheduler simulator: Prometheus summary endpoint -/

/-- Bucket boundaries of the `spark_job_duration_seconds` histogram, from
the `Histogram` registration at module load. -/
def spark_job_duration_buckets : List ℚ :=
  [10, 30, 60, 120, 300, 600, 1800, 3600]

/-- Gauge values written by the `/metrics/prometheus` handler. -/
structure PromGauges where
  apps_total : Nat
  apps_running : Nat
  executors_total : Nat
  cores_used : Nat
  memory_used : Nat
deriving DecidableEq, Repr

/-- Source `prometheus_metrics` (`GET /metrics/prometheus`): refreshes the
five summary gauges from the store, then answers with a one-line comment
body (the actual exposition is mounted at `/metrics` by the WSGI
dispatcher). -/
def prometheus_metrics (s : SchedState) : PromGauges × String :=
  ({ apps_total := s.applications.length + s.completed_apps.length
     apps_running := s.applications.length
     executors_total := (s.applications.map (fun p => p.2.executors)).sum
     cores_used := (s.applications.map (fun p => p.2.cores)).sum
     memory_used :=
       (s.applications.map
         (fun p => p.2.memoryPerExecutor * p.2.executors * 1024 * 1024)).sum },
   "# Spark metrics available at /metrics\n")

/-! ## GPU metrics simulator: data model (gpu-simulator.py) -/

/-- Per-device simulation state (`class GPUState`): immutable identity and
per-device baseline draws, plus the mutable cumulative energy accumulator.
The `:04d` zero padding of the index inside the synthetic UUID is not
re-modelled. -/
structure GPUState where
  hostname : String
  gpu_index : Nat
  uuid : String
  model : String
  base_util : ℚ
  base_temp : ℚ
  base_power : ℚ
  total_memory : ℤ
  energy : ℚ
deriving DecidableEq, Repr

/-- Source `GPUState.__init__`: baselines are `uniform(60, 90)`,
`uniform(45, 55)` and `uniform(80, 120)` draws (passed in here as rational
parameters), the memory size is 128 GiB in MiB, and the energy
accumulator starts at zero. -/
def GPUState.init (hostname : String) (gpu_index : Nat) (ruuid : Nat)
    (bu bt bp : ℚ) : GPUState :=
  { hostname := hostname
    gpu_index := gpu_index
    uuid := "GPU-" ++ hostname ++ "-" ++ toString gpu_index ++ "-"
              ++ toString (randint 1000 9999 ruuid)
    model := "NVIDIA GB10 Blackwell"
    base_util := bu
    base_temp := bt
    base_power := bp
    total_memory := 128 * 1024
    energy := 0 }

/-- Oracle draws consumed by one `update_metrics` pass for one device, in
source order.  Rational fields stand for `random.uniform` draws (their
ranges become theorem hypotheses), integer fields for `random.randint`
noise terms. -/
structure GDraws where
  noise : ℚ
  r_mem : ℚ
  temp_noise : ℚ
  mem_temp_delta : ℚ
  power_noise : ℚ
  sm_noise : ℤ
  memc_noise : ℤ
  pcie_tx_noise : ℤ
  pcie_rx_noise : ℤ
  nvlink_noise : ℚ
  r_tensor : ℚ
  r_dram : ℚ
deriving DecidableEq, Repr

/-- The per-device gauge values written by one `update_metrics` pass. -/
structure Snapshot where
  util : ℚ
  mem_copy_util : ℚ
  fb_used : ℤ
  fb_free : ℤ
  fb_total : ℤ
  gpu_temp : ℚ
  mem_temp : ℚ
  power : ℚ
  energy : ℚ
  sm_clock : ℤ
  mem_clock : ℤ
  pcie_tx : ℤ
  pcie_rx : ℤ
  nvlink : ℚ
  tensor_active : ℚ
  dram_active : ℚ
  ecc_sbe : Nat
  ecc_dbe : Nat
  xid : Nat
deriving DecidableEq, Repr

/-- Source `update_metrics`, body of the per-device loop.  `w` stands for
the workload factor `0.5 + 0.5 * math.sin(t / 60)` (a transcendental of the
wall clock, carried here as an input).  Python `int(...)` truncations are
`Int.floor`; every truncated operand below is nonnegative, where the two
agree.  Returns the device state with the accumulated energy and the gauge
snapshot written for the device. -/
def update_metrics (st : GPUState) (w : ℚ) (d : GDraws) : GPUState × Snapshot :=
  let util : ℚ := min 99 (max 10 (st.base_util * w + d.noise + 30))
  let mem_used : ℤ := ⌊(st.total_memory : ℚ) * (3/10 + 1/2 * (util / 100))⌋
  let mem_free : ℤ := st.total_memory - mem_used
  let temp : ℚ := st.base_temp + (util / 100) * 25 + d.temp_noise
  let power : ℚ := st.base_power + (util / 100) * 80 + d.power_noise
  let energy : ℚ := st.energy + power * 5 * 1000
  ({ st with energy := energy },
   { util := util
     mem_copy_util := util * d.r_mem
     fb_used := mem_used
     fb_free := mem_free
     fb_total := st.total_memory
     gpu_temp := temp
     mem_temp := temp - d.mem_temp_delta
     power := power
     energy := energy
     sm_clock := 1500 + ⌊(util / 100) * 800⌋ + d.sm_noise
     mem_clock := 1600 + ⌊(util / 100) * 400⌋ + d.memc_noise
     pcie_tx := ⌊(util / 100) * 15000000⌋ + d.pcie_tx_noise
     pcie_rx := ⌊(util / 100) * 12000000⌋ + d.pcie_rx_noise
     nvlink := (util / 100) * 200 + d.nvlink_noise
     tensor_active := util * d.r_tensor
     dram_active := util * d.r_dram
     ecc_sbe := 0
     ecc_dbe := 0
     xid := 0 })

/-- A sequence of update passes (periodic ticks and scrape-triggered
passes alike) applied to one device, each with its workload factor and
draw record. -/
def runUpdates (st : GPUState) (tr : List (ℚ × GDraws)) : GPUState :=
  tr.foldl (fun s p => (update_metrics s p.1 p.2).1) st

/-! ## Job scheduler simulator: randomized sub-resource endpoints -/

/-- One entry of the `GET /api/v1/applications/<id>/jobs` response. -/
structure SubJob where
  jobId : Nat
  name : String
  submissionTime : String
  completionTime : Option String
  stageIds : List Nat
  status : String
  numTasks : Nat
  numActiveTasks : Nat
  numCompletedTasks : Nat
  numFailedTasks : Nat
deriving DecidableEq, Repr

/-- Oracle draws for one fabricated job entry. -/
structure SubJobDraws where
  completionCoin : Bool
  rStageIds : Nat
  rStatus : Nat
  rTasks : Nat
  rActive : Nat
  rCompleted : Nat
  rFailed : Nat

/-- Source `get_application_jobs`: fabricates `randint(3, 10)` job entries;
the supplied application id is never read.  `ts` stands for
`datetime.now().isoformat()` and the coin for `random.random() > 0.3`. -/
def get_application_jobs (app_id : String) (ts : String) (n : Nat)
    (o : Nat → SubJobDraws) : List SubJob :=
  (List.range (randint 3 10 n)).map (fun i =>
    { jobId := i
      name := "Job " ++ toString i
      submissionTime := ts
      completionTime := if (o i).completionCoin then some ts else none
      stageIds := List.range (randint 1 5 (o i).rStageIds)
      status := choice ["SUCCEEDED", "RUNNING", "FAILED"] (o i).rStatus
      numTasks := randint 10 100 (o i).rTasks
      numActiveTasks := randint 0 10 (o i).rActive
      numCompletedTasks := randint 50 90 (o i).rCompleted
      numFailedTasks := randint 0 5 (o i).rFailed })

/-- One entry of the `GET /api/v1/applications/<id>/stages` response. -/
structure SubStage where
  stageId : Nat
  attemptId : Nat
  name : String
  status : String
  numTasks : Nat
  numActiveTasks : Nat
  numCompleteTasks : Nat
  numFailedTasks : Nat
  executorRunTime : Nat
  inputBytes : Nat
  outputBytes : Nat
  shuffleReadBytes : Nat
  shuffleWriteBytes : Nat
deriving DecidableEq, Repr

/-- Oracle draws for one fabricated stage entry. -/
structure SubStageDraws where
  rStatus : Nat
  rTasks : Nat
  rActive : Nat
  rComplete : Nat
  rFailed : Nat
  rRunTime : Nat
  rInput : Nat
  rOutput : Nat
  rShufR : Nat
  rShufW : Nat

/-- Source `get_application_stages`: fabricates `randint(5, 15)` stage
entries; the supplied application id is never read. -/
def get_application_stages (app_id : String) (n : Nat)
    (o : Nat → SubStageDraws) : List SubStage :=
  (List.range (randint 5 15 n)).map (fun i =>
    { stageId := i
      attemptId := 0
      name := "Stage " ++ toString i
      status := choice ["COMPLETE", "ACTIVE", "PENDING"] (o i).rStatus
      numTasks := randint 10 100 (o i).rTasks
      numActiveTasks := randint 0 10 (o i).rActive
      numCompleteTasks := randint 50 90 (o i).rComplete
      numFailedTasks := randint 0 2 (o i).rFailed
      executorRunTime := randint 1000 60000 (o i).rRunTime
      inputBytes := randint 1000000 1000000000 (o i).rInput
      outputBytes := randint 1000000 500000000 (o i).rOutput
      shuffleReadBytes := randint 0 100000000 (o i).rShufR
      shuffleWriteBytes := randint 0 100000000 (o i).rShufW })

/-- One entry of the `GET /api/v1/applications/<id>/executors` response. -/
structure SubExecutor where
  id : String
  hostPort : String
  isActive : Bool
  rddBlocks : Nat
  memoryUsed : Nat
  diskUsed : Nat
  totalCores : Nat
  maxTasks : Nat
  activeTasks : Nat
  failedTasks : Nat
  completedTasks : Nat
  totalTasks : Nat
  totalDuration : Nat
  totalGCTime : Nat
  totalInputBytes : Nat
  totalShuffleRead : Nat
  totalShuffleWrite : Nat
  maxMemory : Nat
deriving DecidableEq, Repr

/-- Oracle draws for one fabricated executor entry. -/
structure SubExecDraws where
  rRdd : Nat
  rMemUsed : Nat
  rDisk : Nat
  rActive : Nat
  rFailed : Nat
  rCompleted : Nat
  rTotal : Nat
  rDuration : Nat
  rGC : Nat
  rInput : Nat
  rShufR : Nat
  rShufW : Nat

/-- Source `get_application_executors`: one fixed driver entry plus
`randint(2, 6)` worker entries; the supplied application id is never read.
The driver entry draws `rMemUsed`, `rActive`, `rCompleted`, `rTotal`,
`rDuration`, `rGC`, `rInput`, `rShufR`, `rShufW` from oracle slot 0 and the
workers from slots `1, 2, ...`. -/
def get_application_executors (app_id : String) (n : Nat)
    (o : Nat → SubExecDraws) : List SubExecutor :=
  { id := "driver"
    hostPort := "192.168.100.10:42000"
    isActive := true
    rddBlocks := 0
    memoryUsed := randint 100000000 500000000 (o 0).rMemUsed
    diskUsed := 0
    totalCores := 4
    maxTasks := 4
    activeTasks := randint 0 4 (o 0).rActive
    failedTasks := 0
    completedTasks := randint 10 100 (o 0).rCompleted
    totalTasks := randint 10 100 (o 0).rTotal
    totalDuration := randint 10000 100000 (o 0).rDuration
    totalGCTime := randint 100 1000 (o 0).rGC
    totalInputBytes := randint 1000000 100000000 (o 0).rInput
    totalShuffleRead := randint 0 50000000 (o 0).rShufR
    totalShuffleWrite := randint 0 50000000 (o 0).rShufW
    maxMemory := 4294967296 } ::
  (List.range (randint 2 6 n)).map (fun i =>
    { id := toString i
      hostPort := "192.168.100." ++ toString (10 + i % 2) ++ ":"
                    ++ toString (42000 + i)
      isActive := true
      rddBlocks := randint 0 10 (o (i + 1)).rRdd
      memoryUsed := randint 500000000 2000000000 (o (i + 1)).rMemUsed
      diskUsed := randint 0 1000000000 (o (i + 1)).rDisk
      totalCores := 4
      maxTasks := 4
      activeTasks := randint 0 4 (o (i + 1)).rActive
      failedTasks := randint 0 2 (o (i + 1)).rFailed
      completedTasks := randint 50 500 (o (i + 1)).rCompleted
      totalTasks := randint 50 500 (o (i + 1)).rTotal
      totalDuration := randint 50000 500000 (o (i + 1)).rDuration
      totalGCTime := randint 500 5000 (o (i + 1)).rGC
      totalInputBytes := randint 10000000 1000000000 (o (i + 1)).rInput
      totalShuffleRead := randint 0 500000000 (o (i + 1)).rShufR
      totalShuffleWrite := randint 0 500000000 (o (i + 1)).rShufW
      maxMemory := 8589934592 })

/-! ## Helper lemmas about the dict model -/

/-- Membership after a dict write comes from the old dict or is the written
pair's value. -/
lemma mem_dictInsert {k : String} {v : Job} {l : List (String × Job)}
    {p : String × Job} (h : p ∈ dictInsert k v l) : p ∈ l ∨ p.2 = v := by
  unfold dictInsert at h
  split at h
  · rcases List.mem_map.1 h with ⟨q, hq, hqe⟩
    by_cases hk : (q.1 == k) = true
    · right
      rw [← hqe]
      simp [hk]
    · left
      rwa [← hqe, if_neg hk]
  · rcases List.mem_append.1 h with h1 | h1
    · exact Or.inl h1
    · right
      rw [List.mem_singleton.1 h1]

/-- Finding the written key in the replace branch of a dict write. -/
lemma find_after_replace (k : String) (v : Job) :
    ∀ l : List (String × Job), l.any (fun p => p.1 == k) = true →
      (l.map (fun p => if p.1 == k then (k, v) else p)).find?
        (fun p => p.1 == k) = some (k, v) := by
  intro l
  induction l with
  | nil => intro hany; simp at hany
  | cons q rest ih =>
      intro hany
      by_cases hq : (q.1 == k) = true
      · rw [List.map_cons, if_pos hq]
        exact List.find?_cons_of_pos _ (by simp)
      · have hrest : rest.any (fun p => p.1 == k) = true := by
          rcases List.any_eq_true.1 hany with ⟨x, hx, hxk⟩
          rcases List.mem_cons.1 hx with rfl | hx2
          · exact absurd hxk hq
          · exact List.any_eq_true.2 ⟨x, hx2, hxk⟩
        rw [List.map_cons, if_neg hq,
            List.find?_cons_of_neg _ (by simpa using hq)]
        exact ih hrest

/-- Looking up the key just written returns the written value. -/
lemma dictLookup_insert (k : String) (v : Job) (l : List (String × Job)) :
    dictLookup k (dictInsert k v l) = some v := by
  unfold dictLookup dictInsert
  split
  · rename_i hany
    rw [find_after_replace k v l hany]
    rfl
  · rename_i hany
    have hnone : l.find? (fun p => p.1 == k) = none := by
      refine List.find?_eq_none.2 (fun x hx => ?_)
      intro hxk
      exact hany (List.any_eq_true.2 ⟨x, hx, hxk⟩)
    rw [List.find?_append, hnone, Option.none_or,
        List.find?_cons_of_pos _ (by simp)]
    rfl

/-- Looking up a popped key misses. -/
lemma dictLookup_pop (k : String) (l : List (String × Job)) :
    dictLookup k (dictPop k l) = none := by
  unfold dictLookup dictPop
  have hnone : (l.filter (fun p => !(p.1 == k))).find?
      (fun p => p.1 == k) = none := by
    refine List.find?_eq_none.2 (fun x hx => ?_)
    intro hxk
    have hkeep := (List.mem_filter.1 hx).2
    rw [hxk] at hkeep
    simp at hkeep
  rw [hnone]
  rfl

/-- A successful lookup means the value is among the stored jobs. -/
lemma dictLookup_mem {k : String} {l : List (String × Job)} {v : Job}
    (h : dictLookup k l = some v) : v ∈ l.map (fun p => p.2) := by
  unfold dictLookup at h
  rcases Option.map_eq_some'.1 h with ⟨p, hp, hpe⟩
  exact hpe ▸ List.mem_map.2 ⟨p, List.mem_of_find?_eq_some hp, rfl⟩

/-- Appending one job keeps it inside the 10-element listing window. -/
lemma mem_lastN_append_singleton (l : List Job) (x : Job) :
    x ∈ lastN 10 (l ++ [x]) := by
  unfold lastN
  have hlen : (l ++ [x]).length - 10 ≤ l.length := by
    simp only [List.length_append, List.length_singleton]
    omega
  rw [List.drop_append_of_le_length hlen]
  exact List.mem_append_right _ (List.mem_singleton.2 rfl)

/-! ## Helper lemmas about the updater and the operation semantics -/

/-- Progress advance never touches the lifecycle state. -/
lemma updateProgress_state (j : Job) (r : Nat) :
    (updateProgress j r).state = j.state := rfl

/-- A freshly fabricated application record carries the requested state. -/
lemma create_mock_application_state (n : String) (st : JState) (ts : String)
    (d : MockDraws) : ((create_mock_application n st ts d).2).state = st := rfl

/-- Every entry surviving a tick sweep carries the state of an entry of the
swept list. -/
lemma tickPassAux_mem_active :
    ∀ (l : List (String × Job)) (o : Nat → Nat × Bool) (k : Nat)
      (p : String × Job), p ∈ (tickPassAux l o k).1 →
      ∃ q ∈ l, p.2.state = q.2.state := by
  intro l
  induction l with
  | nil => intro o k p hp; simp [tickPassAux] at hp
  | cons hd rest ih =>
      intro o k p hp
      obtain ⟨i, j⟩ := hd
      unfold tickPassAux at hp
      dsimp only at hp
      split at hp
      · rcases ih o (k + 1) p hp with ⟨q, hq, hqs⟩
        exact ⟨q, List.mem_cons_of_mem _ hq, hqs⟩
      · rcases List.mem_cons.1 hp with rfl | hp2
        · exact ⟨(i, j), List.mem_cons_self _ _, updateProgress_state j _⟩
        · rcases ih o (k + 1) p hp2 with ⟨q, hq, hqs⟩
          exact ⟨q, List.mem_cons_of_mem _ hq, hqs⟩

/-- A job already in the completed history is still there after any
operation: every operation only appends to the history. -/
lemma applyOp_completed_mono (op : Op) (s : SchedState) {j : Job}
    (hj : j ∈ s.completed_apps) : j ∈ (applyOp op s).completed_apps := by
  cases op with
  | tick d =>
      show j ∈ (update_jobs_tick s d).completed_apps
      unfold update_jobs_tick
      dsimp only
      split <;> exact List.mem_append_left _ hj
  | submit body ts d => exact hj
  | kill i =>
      show j ∈ ((kill_submission s i).2).completed_apps
      unfold kill_submission
      cases hk : dictLookup i s.applications with
      | some job => exact List.mem_append_left _ hj
      | none => exact hj
  | status i => exact hj
  | listApps => exact hj
  | getApp i => exact hj

/-- The invariant that every active job is RUNNING survives every
operation. -/
lemma allRunning_applyOp (op : Op) (s : SchedState) (h : allRunning s) :
    allRunning (applyOp op s) := by
  cases op with
  | tick d =>
      show allRunning (update_jobs_tick s d)
      unfold update_jobs_tick
      dsimp only
      split
      · intro p hp
        rcases mem_dictInsert hp with hp2 | hp2
        · rcases tickPassAux_mem_active _ _ _ _ hp2 with ⟨q, hq, hqs⟩
          rw [hqs]
          exact h q hq
        · rw [hp2, create_mock_application_state]
      · intro p hp
        rcases tickPassAux_mem_active _ _ _ _ hp with ⟨q, hq, hqs⟩
        rw [hqs]
        exact h q hq
  | submit body ts d =>
      intro p hp
      rcases mem_dictInsert hp with hp2 | hp2
      · exact h p hp2
      · rw [hp2, create_mock_application_state]
  | kill i =>
      show allRunning ((kill_submission s i).2)
      unfold kill_submission
      cases hk : dictLookup i s.applications with
      | some job =>
          intro p hp
          exact h p (List.mem_of_mem_filter hp)
      | none => exact h
  | status i => exact h
  | listApps => exact h
  | getApp i => exact h

/-- Over a whole operation sequence: history membership persists and the
invariant is maintained. -/
lemma applyOps_completed_mono (ops : List Op) :
    ∀ (s : SchedState), allRunning s → ∀ {j : Job}, j ∈ s.completed_apps →
      j ∈ (applyOps ops s).completed_apps ∧ allRunning (applyOps ops s) := by
  induction ops with
  | nil => intro s hs _ hj; exact ⟨hj, hs⟩
  | cons op rest ih =>
      intro s hs j hj
      have h1 := applyOp_completed_mono op s hj
      have h2 := allRunning_applyOp op s hs
      exact ih (applyOp op s) h2 h1

/-! ## Helper lemmas about the GPU update pass -/

/-- The published utilization is clamped into [10, 99] whatever the
baseline, workload factor and noise are. -/
lemma update_metrics_util_bounds (st : GPUState) (w : ℚ) (d : GDraws) :
    10 ≤ ((update_metrics st w d).2).util ∧ ((update_metrics st w d).2).util ≤ 99 := by
  unfold update_metrics
  dsimp only
  exact ⟨le_min (by norm_num) (le_max_left _ _), min_le_left _ _⟩

/-- An update pass never touches the baseline power parameter. -/
lemma update_metrics_base_power (st : GPUState) (w : ℚ) (d : GDraws) :
    ((update_metrics st w d).1).base_power = st.base_power := rfl

/-- The energy accumulator advances by exactly power times the 5-second
interval, converted to millijoules. -/
lemma update_metrics_energy_eq (st : GPUState) (w : ℚ) (d : GDraws) :
    ((update_metrics st w d).1).energy
      = st.energy + ((update_metrics st w d).2).power * 5 * 1000 := rfl

/-- With the baseline in its startup range and the noise draw in its
uniform range, the simulated power draw is nonnegative. -/
lemma update_metrics_power_nonneg (st : GPUState) (w : ℚ) (d : GDraws)
    (hp : 80 ≤ st.base_power) (hn : -5 ≤ d.power_noise) :
    0 ≤ ((update_metrics st w d).2).power := by
  have hu := (update_metrics_util_bounds st w d).1
  unfold update_metrics at hu ⊢
  dsimp only at hu ⊢
  linarith

/-- The energy accumulator never decreases over any sequence of update
passes with in-range power-noise draws. -/
lemma runUpdates_energy_mono :
    ∀ (tr : List (ℚ × GDraws)) (st : GPUState), 80 ≤ st.base_power →
      (∀ p ∈ tr, -5 ≤ (p.2).power_noise) →
      st.energy ≤ (runUpdates st tr).energy := by
  intro tr
  induction tr with
  | nil => intro st _ _; exact le_refl _
  | cons p rest ih =>
      intro st hp hn
      have hstep : st.energy ≤ ((update_metrics st p.1 p.2).1).energy := by
        rw [update_metrics_energy_eq]
        have h0 := update_metrics_power_nonneg st p.1 p.2 hp
          (hn p (List.mem_cons_self _ _))
        nlinarith
      have hbp : 80 ≤ ((update_metrics st p.1 p.2).1).base_power := by
        rw [update_metrics_base_power]; exact hp
      have hrest : ∀ q ∈ rest, -5 ≤ (q.2).power_noise :=
        fun q hq => hn q (List.mem_cons_of_mem _ hq)
      have htail := ih ((update_metrics st p.1 p.2).1) hbp hrest
      calc st.energy ≤ ((update_metrics st p.1 p.2).1).energy := hstep
        _ ≤ (runUpdates ((update_metrics st p.1 p.2).1) rest).energy := htail

/-! ## Claims -/

/-- C1: the spec claims every job satisfies `completed_stages ≤ total_stages`
and `completed_tasks ≤ total_tasks` at every point of its lifetime, and the
updater indeed guards and clamps its increments accordingly — but the
creation path breaks the invariant: `create_mock_application` draws the
completed counts from ranges (`randint(0, 15)` stages, `randint(50, 900)`
tasks) that overlap above the total ranges (`randint(5, 20)` stages,
`randint(100, 1000)` tasks).  With draws giving totals 5 and 100 and
completed counts 15 and 850, a just-created job already violates both
inequalities (and no later tick repairs it, since the updater's guards skip
a job whose completed counts are not below the totals). -/
theorem create_mock_application_can_exceed_totals :
    ((create_mock_application "PySpark Job" JState.RUNNING "20251212103000"
        ⟨0, 0, 0, 0, 0, 0, 15, 0, 0, 800, 0⟩).2).stages.total
      < ((create_mock_application "PySpark Job" JState.RUNNING "20251212103000"
        ⟨0, 0, 0, 0, 0, 0, 15, 0, 0, 800, 0⟩).2).stages.completed
    ∧ ((create_mock_application "PySpark Job" JState.RUNNING "20251212103000"
        ⟨0, 0, 0, 0, 0, 0, 15, 0, 0, 800, 0⟩).2).tasks.total
      < ((create_mock_application "PySpark Job" JState.RUNNING "20251212103000"
        ⟨0, 0, 0, 0, 0, 0, 15, 0, 0, 800, 0⟩).2).tasks.completed := by
  decide

/-- C2 counterexample: the claim asserts zeroed progress and pairwise
distinct IDs.  Two submissions issued within the same strftime second and
with the same suffix draw receive the same submission ID, and the job a
submission stores has a nonzero completed-task count (its progress counters
are randomized, not zeroed). -/
theorem submit_ids_collide_and_progress_not_zeroed :
    ((create_submission { applications := [], completed_apps := [] } none
        "20251212103000" ⟨0, 0, 0, 0, 0, 0, 0, 0, 0, 0, 0⟩).1).submissionId
      = ((create_submission
          (create_submission { applications := [], completed_apps := [] } none
            "20251212103000" ⟨0, 0, 0, 0, 0, 0, 0, 0, 0, 0, 0⟩).2 none
          "20251212103000" ⟨0, 0, 0, 0, 0, 0, 0, 0, 0, 0, 0⟩).1).submissionId
    ∧ ¬ ((dictLookup
          ((create_submission { applications := [], completed_apps := [] } none
            "20251212103000" ⟨0, 0, 0, 0, 0, 0, 0, 0, 0, 0, 0⟩).1).submissionId
          ((create_submission { applications := [], completed_apps := [] } none
            "20251212103000" ⟨0, 0, 0, 0, 0, 0, 0, 0, 0, 0, 0⟩).2).applications).map
            (fun j => j.tasks.completed) = some 0) := by
  decide

/-- C2 (amended): submit creates a new job in RUNNING state (with randomized,
not zeroed, progress counters) and returns a generated ID; an immediate
status call on that ID returns a RUNNING driver state.  IDs combine a
per-second timestamp with a random four-digit suffix, so repeated
submissions are not guaranteed distinct IDs (see the counterexample). -/
theorem submit_then_status_returns_running (s : SchedState)
    (body : Option (Option String)) (ts : String) (d : MockDraws) :
    ((create_submission s body ts d).1).success = true
    ∧ get_submission_status (create_submission s body ts d).2
        ((create_submission s body ts d).1).submissionId
        = some JState.RUNNING := by
  refine ⟨rfl, ?_⟩
  unfold get_submission_status create_submission
  dsimp only
  rw [dictLookup_insert]
  rfl

/-- C9: the submission-create handler is total over request bodies: for any
body — absent or unparseable (`none`), parsed but missing the `appResource`
field (`some none`), or fully supplied — it answers `success = true`, stores
a job under the returned submission ID, and names the job by the
`appResource` field defaulted to the fixed string `Submitted Job`. -/
theorem create_submission_tolerates_missing_body (s : SchedState)
    (body : Option (Option String)) (ts : String) (d : MockDraws) :
    ((create_submission s body ts d).1).success = true
    ∧ dictLookup ((create_submission s body ts d).1).submissionId
        ((create_submission s body ts d).2).applications
        = some (create_mock_application ((body.getD none).getD "Submitted Job")
            JState.RUNNING ts d).2
    ∧ ((create_mock_application ((body.getD none).getD "Submitted Job")
          JState.RUNNING ts d).2).name = (body.getD none).getD "Submitted Job" := by
  refine ⟨rfl, ?_, rfl⟩
  unfold create_submission
  dsimp only
  exact dictLookup_insert _ _ _

/-- C10: the three sub-resource endpoints fabricate their arrays without
consulting the supplied application ID (the same oracle gives the same
answer for any two IDs, known or unknown), the arrays are never empty, and
the handlers are total — no NotFound path exists. -/
theorem subresource_endpoints_ignore_id_and_are_nonempty
    (i i2 ts : String) (n m k : Nat) (oj : Nat → SubJobDraws)
    (os : Nat → SubStageDraws) (oe : Nat → SubExecDraws) :
    get_application_jobs i ts n oj = get_application_jobs i2 ts n oj
    ∧ get_application_jobs i ts n oj ≠ []
    ∧ get_application_stages i m os = get_application_stages i2 m os
    ∧ get_application_stages i m os ≠ []
    ∧ get_application_executors i k oe = get_application_executors i2 k oe
    ∧ get_application_executors i k oe ≠ [] := by
  refine ⟨rfl, ?_, rfl, ?_, rfl, ?_⟩
  · apply List.length_pos.1
    unfold get_application_jobs randint
    rw [List.length_map, List.length_range]
    omega
  · apply List.length_pos.1
    unfold get_application_stages randint
    rw [List.length_map, List.length_range]
    omega
  · unfold get_application_executors
    exact List.cons_ne_nil _ _

/-- C5: FINISHED and KILLED are terminal.  In any store where every active
job is RUNNING (as established at seeding and preserved by every
operation), a job record that is FINISHED or KILLED lies in the completed
history, and after any sequence of ticks and API calls it is still present
there unchanged — no operation ever rewrites a history entry — and the
invariant still holds, so it can never re-enter the mutable active set. -/
theorem finished_or_killed_is_terminal (s : SchedState) (h : allRunning s)
    (j : Job) (hj : j ∈ allJobs s)
    (hterm : j.state = JState.FINISHED ∨ j.state = JState.KILLED)
    (ops : List Op) :
    j ∈ (applyOps ops s).completed_apps ∧ allRunning (applyOps ops s) := by
  have hjc : j ∈ s.completed_apps := by
    rcases List.mem_append.1 hj with hin | hin
    · rcases List.mem_map.1 hin with ⟨p, hp, rfl⟩
      have hrun := h p hp
      rcases hterm with ht | ht <;> rw [hrun] at ht <;> exact JState.noConfusion ht
    · exact hin
  exact applyOps_completed_mono ops s h hjc

/-- Concrete FINISHED job used to instantiate the terminality theorem. -/
def jobFinishedEx : Job :=
  { id := "app-20251212102000-2000"
    name := "Batch Job"
    state := JState.FINISHED
    sparkUser := "dgx-admin"
    completed := true
    durationMs := 120000
    executors := 3
    cores := 8
    memoryPerExecutor := 8192
    stages := { total := 6, completed := 6, failed := 0 }
    tasks := { total := 200, completed := 200, failed := 1 } }

/-- Concrete RUNNING job used to populate the active set of the
terminality witness. -/
def jobRunningEx : Job :=
  { id := "app-20251212103000-1000"
    name := "ETL Pipeline"
    state := JState.RUNNING
    sparkUser := "dgx-admin"
    completed := false
    durationMs := 60000
    executors := 2
    cores := 4
    memoryPerExecutor := 4096
    stages := { total := 5, completed := 1, failed := 0 }
    tasks := { total := 100, completed := 50, failed := 0 } }

/-- Concrete store with one RUNNING active job and one FINISHED job in
history. -/
def stateTermEx : SchedState :=
  { applications := [("app-20251212103000-1000", jobRunningEx)]
    completed_apps := [jobFinishedEx] }

/-- C5 witness: in the concrete store, the FINISHED history job survives a
kill of the active job unchanged, and the invariant still holds. -/
theorem finished_or_killed_is_terminal_witness :
    allRunning stateTermEx
    ∧ jobFinishedEx ∈ allJobs stateTermEx
    ∧ (jobFinishedEx.state = JState.FINISHED ∨ jobFinishedEx.state = JState.KILLED)
    ∧ (jobFinishedEx
         ∈ (applyOps [Op.kill "app-20251212103000-1000"] stateTermEx).completed_apps
       ∧ allRunning (applyOps [Op.kill "app-20251212103000-1000"] stateTermEx)) :=
  ⟨by decide, by decide, by decide,
   finished_or_killed_is_terminal stateTermEx (by decide) jobFinishedEx
     (by decide) (by decide) [Op.kill "app-20251212103000-1000"]⟩

/-- C6: the full submit / list / kill / status / list lifecycle.  The job a
submission stores appears in the listing with state RUNNING; killing its ID
succeeds and appends the KILLED, completed copy to the history; a status
call on the same ID then misses (status scans only the active set); and the
KILLED copy appears in the next listing through the 10-element history
window. -/
theorem submit_list_kill_status_list_lifecycle (s0 : SchedState)
    (body : Option (Option String)) (ts : String) (d : MockDraws) :
    ∃ j, dictLookup ((create_submission s0 body ts d).1).submissionId
           ((create_submission s0 body ts d).2).applications = some j
      ∧ j ∈ list_applications (create_submission s0 body ts d).2
      ∧ j.state = JState.RUNNING
      ∧ (kill_submission (create_submission s0 body ts d).2
           ((create_submission s0 body ts d).1).submissionId).1.success = true
      ∧ { j with state := JState.KILLED, completed := true }
          ∈ ((kill_submission (create_submission s0 body ts d).2
               ((create_submission s0 body ts d).1).submissionId).2).completed_apps
      ∧ get_submission_status
          ((kill_submission (create_submission s0 body ts d).2
             ((create_submission s0 body ts d).1).submissionId).2)
          ((create_submission s0 body ts d).1).submissionId = none
      ∧ { j with state := JState.KILLED, completed := true }
          ∈ list_applications ((kill_submission (create_submission s0 body ts d).2
               ((create_submission s0 body ts d).1).submissionId).2) := by
  have hlook : dictLookup ((create_submission s0 body ts d).1).submissionId
      ((create_submission s0 body ts d).2).applications
      = some (create_mock_application ((body.getD none).getD "Submitted Job")
          JState.RUNNING ts d).2 := by
    unfold create_submission
    dsimp only
    exact dictLookup_insert _ _ _
  have hkill : kill_submission (create_submission s0 body ts d).2
      ((create_submission s0 body ts d).1).submissionId
      = ({ success := true, httpStatus := 200,
           message := "Kill request for "
             ++ ((create_submission s0 body ts d).1).submissionId ++ " submitted" },
         { applications := dictPop ((create_submission s0 body ts d).1).submissionId
             ((create_submission s0 body ts d).2).applications
           completed_apps := ((create_submission s0 body ts d).2).completed_apps
             ++ [{ (create_mock_application ((body.getD none).getD "Submitted Job")
                     JState.RUNNING ts d).2 with
                   state := JState.KILLED, completed := true }] }) := by
    unfold kill_submission
    rw [hlook]
  refine ⟨(create_mock_application ((body.getD none).getD "Submitted Job")
      JState.RUNNING ts d).2, hlook, ?_, rfl, ?_, ?_, ?_, ?_⟩
  · exact List.mem_append_left _ (dictLookup_mem hlook)
  · rw [hkill]
  · rw [hkill]
    exact List.mem_append_right _ (List.mem_singleton.2 rfl)
  · unfold get_submission_status
    rw [hkill]
    dsimp only
    rw [dictLookup_pop]
    rfl
  · rw [hkill]
    unfold list_applications
    dsimp only
    exact List.mem_append_right _ (mem_lastN_append_singleton _ _)

/-- C7: killing an ID absent from the active set — even one present in the
completed history — answers the 404 body and leaves the whole store (active
set and history alike) unchanged. -/
theorem kill_nonexistent_returns_404 (s : SchedState) (i : String)
    (h : dictLookup i s.applications = none) :
    (kill_submission s i).1.success = false
    ∧ (kill_submission s i).1.httpStatus = 404
    ∧ (kill_submission s i).1.message = "Submission not found"
    ∧ (kill_submission s i).2 = s := by
  unfold kill_submission
  rw [h]
  exact ⟨rfl, rfl, rfl, rfl⟩

/-- Concrete store for the kill-miss witness: one active job and one
FINISHED history job. -/
def stateKillEx : SchedState :=
  { applications := [("app-20251212104500-4321",
      { id := "app-20251212104500-4321", name := "ML Training",
        state := JState.RUNNING, sparkUser := "dgx-admin",
        completed := false, durationMs := 300000, executors := 4,
        cores := 16, memoryPerExecutor := 16384,
        stages := { total := 10, completed := 2, failed := 0 },
        tasks := { total := 500, completed := 80, failed := 2 } })]
    completed_apps :=
      [{ id := "app-20251212101500-7777",
         name := "Analytics Query", state := JState.FINISHED,
         sparkUser := "dgx-admin", completed := true, durationMs := 240000,
         executors := 2, cores := 4, memoryPerExecutor := 4096,
         stages := { total := 8, completed := 8, failed := 1 },
         tasks := { total := 300, completed := 300, failed := 0 } }] }

/-- C7 witness: killing the ID of the history job (absent from the active
set) answers 404 and mutates nothing. -/
theorem kill_nonexistent_returns_404_witness :
    dictLookup "app-20251212101500-7777" stateKillEx.applications = none
    ∧ ((kill_submission stateKillEx "app-20251212101500-7777").1.success = false
       ∧ (kill_submission stateKillEx "app-20251212101500-7777").1.httpStatus = 404
       ∧ (kill_submission stateKillEx "app-20251212101500-7777").1.message
           = "Submission not found"
       ∧ (kill_submission stateKillEx "app-20251212101500-7777").2 = stateKillEx) :=
  ⟨by decide, kill_nonexistent_returns_404 stateKillEx
    "app-20251212101500-7777" (by decide)⟩

/-- C3: on every update pass (periodic tick or scrape-triggered) and for
every device state, the framebuffer gauges satisfy `used + free = total`
exactly, utilization is clamped into [10, 99], and — with the uniform
multiplier draws in their source ranges — the memory-copy, tensor-pipe and
DRAM-active percentages lie in [0, 100]. -/
theorem gpu_memory_partition_and_percent_bounds (st : GPUState) (w : ℚ)
    (d : GDraws)
    (hm1 : 3/10 ≤ d.r_mem) (hm2 : d.r_mem ≤ 3/5)
    (ht1 : 7/10 ≤ d.r_tensor) (ht2 : d.r_tensor ≤ 19/20)
    (hd1 : 2/5 ≤ d.r_dram) (hd2 : d.r_dram ≤ 7/10) :
    ((update_metrics st w d).2).fb_used + ((update_metrics st w d).2).fb_free
        = ((update_metrics st w d).2).fb_total
    ∧ (10 ≤ ((update_metrics st w d).2).util
        ∧ ((update_metrics st w d).2).util ≤ 99)
    ∧ (0 ≤ ((update_metrics st w d).2).mem_copy_util
        ∧ ((update_metrics st w d).2).mem_copy_util ≤ 100)
    ∧ (0 ≤ ((update_metrics st w d).2).tensor_active
        ∧ ((update_metrics st w d).2).tensor_active ≤ 100)
    ∧ (0 ≤ ((update_metrics st w d).2).dram_active
        ∧ ((update_metrics st w d).2).dram_active ≤ 100) := by
  obtain ⟨hu1, hu2⟩ := update_metrics_util_bounds st w d
  have hu0 : (0 : ℚ) ≤ ((update_metrics st w d).2).util :=
    le_trans (by norm_num) hu1
  refine ⟨?_, ⟨hu1, hu2⟩, ⟨?_, ?_⟩, ⟨?_, ?_⟩, ⟨?_, ?_⟩⟩
  · unfold update_metrics
    dsimp only
    ring
  · exact mul_nonneg hu0 (le_trans (by norm_num) hm1)
  · calc ((update_metrics st w d).2).util * d.r_mem
        ≤ 99 * (3/5) :=
          mul_le_mul hu2 hm2 (le_trans (by norm_num) hm1) (by norm_num)
      _ ≤ 100 := by norm_num
  · exact mul_nonneg hu0 (le_trans (by norm_num) ht1)
  · calc ((update_metrics st w d).2).util * d.r_tensor
        ≤ 99 * (19/20) :=
          mul_le_mul hu2 ht2 (le_trans (by norm_num) ht1) (by norm_num)
      _ ≤ 100 := by norm_num
  · exact mul_nonneg hu0 (le_trans (by norm_num) hd1)
  · calc ((update_metrics st w d).2).util * d.r_dram
        ≤ 99 * (7/10) :=
          mul_le_mul hu2 hd2 (le_trans (by norm_num) hd1) (by norm_num)
      _ ≤ 100 := by norm_num

/-- Concrete device state used to instantiate the GPU snapshot bounds
theorem. -/
def gpuStateEx : GPUState :=
  { hostname := "dgx-spark-01", gpu_index := 0,
    uuid := "GPU-dgx-spark-01-0-1234", model := "NVIDIA GB10 Blackwell",
    base_util := 70, base_temp := 50, base_power := 100,
    total_memory := 131072, energy := 0 }

/-- Concrete draw record with every uniform multiplier inside its source
range. -/
def gdrawsEx : GDraws :=
  { noise := 2, r_mem := 1/2, temp_noise := 1, mem_temp_delta := 7,
    power_noise := -1, sm_noise := 10, memc_noise := 5, pcie_tx_noise := 0,
    pcie_rx_noise := 0, nvlink_noise := 0, r_tensor := 4/5, r_dram := 1/2 }

/-- C3 witness: the bounds theorem applied to a concrete device and pass. -/
theorem gpu_memory_partition_and_percent_bounds_witness :
    (3/10 ≤ gdrawsEx.r_mem ∧ gdrawsEx.r_mem ≤ 3/5)
    ∧ (7/10 ≤ gdrawsEx.r_tensor ∧ gdrawsEx.r_tensor ≤ 19/20)
    ∧ (2/5 ≤ gdrawsEx.r_dram ∧ gdrawsEx.r_dram ≤ 7/10)
    ∧ (((update_metrics gpuStateEx 1 gdrawsEx).2).fb_used
          + ((update_metrics gpuStateEx 1 gdrawsEx).2).fb_free
          = ((update_metrics gpuStateEx 1 gdrawsEx).2).fb_total
       ∧ (10 ≤ ((update_metrics gpuStateEx 1 gdrawsEx).2).util
          ∧ ((update_metrics gpuStateEx 1 gdrawsEx).2).util ≤ 99)
       ∧ (0 ≤ ((update_metrics gpuStateEx 1 gdrawsEx).2).mem_copy_util
          ∧ ((update_metrics gpuStateEx 1 gdrawsEx).2).mem_copy_util ≤ 100)
       ∧ (0 ≤ ((update_metrics gpuStateEx 1 gdrawsEx).2).tensor_active
          ∧ ((update_metrics gpuStateEx 1 gdrawsEx).2).tensor_active ≤ 100)
       ∧ (0 ≤ ((update_metrics gpuStateEx 1 gdrawsEx).2).dram_active
          ∧ ((update_metrics gpuStateEx 1 gdrawsEx).2).dram_active ≤ 100)) :=
  ⟨⟨by with_unfolding_all decide, by with_unfolding_all decide⟩,
   ⟨by with_unfolding_all decide, by with_unfolding_all decide⟩,
   ⟨by with_unfolding_all decide, by with_unfolding_all decide⟩,
   gpu_memory_partition_and_percent_bounds gpuStateEx 1 gdrawsEx
     (by with_unfolding_all decide) (by with_unfolding_all decide)
     (by with_unfolding_all decide) (by with_unfolding_all decide)
     (by with_unfolding_all decide) (by with_unfolding_all decide)⟩

/-- C4: the cumulative energy accumulator.  Every pass adds exactly
power × 5 s converted to millijoules, and — with the baseline power in its
startup range and every power-noise draw in its uniform range — the
accumulator never decreases across any sequence of passes; no pass ever
resets it. -/
theorem energy_accumulator_is_monotone (st : GPUState)
    (tr : List (ℚ × GDraws)) (hp : 80 ≤ st.base_power)
    (hn : ∀ p ∈ tr, -5 ≤ (p.2).power_noise) :
    (∀ (w : ℚ) (dr : GDraws), ((update_metrics st w dr).1).energy
        = st.energy + ((update_metrics st w dr).2).power * 5 * 1000)
    ∧ st.energy ≤ (runUpdates st tr).energy :=
  ⟨fun w dr => update_metrics_energy_eq st w dr,
   runUpdates_energy_mono tr st hp hn⟩

/-- Concrete device state used to instantiate the energy monotonicity
theorem. -/
def gpuStateEnergyEx : GPUState :=
  { hostname := "dgx-spark-02", gpu_index := 0,
    uuid := "GPU-dgx-spark-02-0-5678", model := "NVIDIA GB10 Blackwell",
    base_util := 85, base_temp := 47, base_power := 110,
    total_memory := 131072, energy := 0 }

/-- Concrete two-pass trace with in-range power-noise draws. -/
def traceEnergyEx : List (ℚ × GDraws) :=
  [(1, { noise := 0, r_mem := 1/2, temp_noise := 0, mem_temp_delta := 6,
         power_noise := -1, sm_noise := 0, memc_noise := 0,
         pcie_tx_noise := 0, pcie_rx_noise := 0, nvlink_noise := 0,
         r_tensor := 4/5, r_dram := 1/2 }),
   (0, { noise := -3, r_mem := 2/5, temp_noise := 1, mem_temp_delta := 8,
         power_noise := 3, sm_noise := -20, memc_noise := 10,
         pcie_tx_noise := 50000, pcie_rx_noise := -50000, nvlink_noise := 5,
         r_tensor := 9/10, r_dram := 3/5 })]

/-- C4 witness: the monotonicity theorem applied to a concrete device and a
concrete two-pass trace. -/
theorem energy_accumulator_is_monotone_witness :
    80 ≤ gpuStateEnergyEx.base_power
    ∧ (∀ p ∈ traceEnergyEx, -5 ≤ (p.2).power_noise)
    ∧ ((∀ (w : ℚ) (dr : GDraws), ((update_metrics gpuStateEnergyEx w dr).1).energy
          = gpuStateEnergyEx.energy
            + ((update_metrics gpuStateEnergyEx w dr).2).power * 5 * 1000)
       ∧ gpuStateEnergyEx.energy
           ≤ (runUpdates gpuStateEnergyEx traceEnergyEx).energy) :=
  ⟨by with_unfolding_all decide, by with_unfolding_all decide,
   energy_accumulator_is_monotone gpuStateEnergyEx traceEnergyEx
     (by with_unfolding_all decide) (by with_unfolding_all decide)⟩

/-- C8 counterexample: the claim says `GET /metrics/prometheus` returns the
exposition text containing the application counters/gauges and the duration
histogram.  In fact the handler only refreshes the registry gauges and
answers a one-line comment pointing at `/metrics`: its body contains no
`spark_apps_total` series and no `spark_job_duration_seconds` series. -/
theorem prometheus_endpoint_body_has_no_series :
    (prometheus_metrics { applications := [], completed_apps := [] }).2
      = "# Spark metrics available at /metrics\n"
    ∧ ¬ ("spark_apps_total".data
          <:+: (prometheus_metrics
                  { applications := [], completed_apps := [] }).2.data)
    ∧ ¬ ("spark_job_duration_seconds".data
          <:+: (prometheus_metrics
                  { applications := [], completed_apps := [] }).2.data) := by
  decide

/-- C8 (amended): the `/metrics/prometheus` handler refreshes the summary
gauges — total applications (active + history), running applications
(active), executor / core / memory usage summed over the active set — and
returns a fixed one-line comment pointing at `/metrics`, which serves the
actual exposition; the duration histogram is registered with the fixed
bucket boundaries 10, 30, 60, 120, 300, 600, 1800, 3600 seconds. -/
theorem prometheus_endpoint_updates_gauges_and_returns_pointer
    (s : SchedState) :
    (prometheus_metrics s).2 = "# Spark metrics available at /metrics\n"
    ∧ (prometheus_metrics s).1.apps_running = s.applications.length
    ∧ (prometheus_metrics s).1.apps_total
        = (prometheus_metrics s).1.apps_running + s.completed_apps.length
    ∧ (prometheus_metrics s).1.executors_total
        = (s.applications.map (fun p => p.2.executors)).sum
    ∧ (prometheus_metrics s).1.cores_used
        = (s.applications.map (fun p => p.2.cores)).sum
    ∧ (prometheus_metrics s).1.memory_used
        = (s.applications.map
            (fun p => p.2.memoryPerExecutor * p.2.executors * 1024 * 1024)).sum
    ∧ spark_job_duration_buckets = [10, 30, 60, 120, 300, 600, 1800, 3600] :=
  ⟨rfl, rfl, rfl, rfl, rfl, rfl, rfl⟩
